import Mathlib

/-!
Verification development for the smart crypto portfolio manager.

The Python sources are shallowly embedded as executable Lean definitions:

* `src/a2a/server.py` — the per-agent task store, the HTTP task endpoints
  and the background capability dispatcher (`A2ASrv` namespace);
* `src/a2a/client.py` — the A2A client library (`A2ACli` namespace);
* `src/agents/orchestration/agent.py` — the sequential workflow engine
  (`OrchWf` namespace);
* `src/src/agents/orchestration_agent.py` — the MCP orchestration agent:
  `create_workflow`, `register_agent` and the second `Workflow` class with
  `update_status` (`MCPA` and `WF2` namespaces);
* `src/src/workflows/base_workflow.py` — `BaseWorkflow` (`BaseWF` namespace).

Python dicts are embedded as insertion-ordered association lists (`Dict`),
opaque payload values as strings, exceptions as `Except`, and HTTP error
responses (`HTTPException`) as an `Except HTTPEx` result paired with the
unchanged server state.
-/



/-- A Python dict with string keys, as an insertion-ordered association list. -/
abbrev Dict (α : Type) := List (String × α)

/-- Python `m[k]` lookup (first binding wins; dict keys are unique anyway). -/
def dget? {α : Type} : Dict α → String → Option α
  | [], _ => none
  | (k', v) :: rest, k => if k' = k then some v else dget? rest k

/-- Python `m[k] = v`: replace the binding if the key exists, else append. -/
def dset {α : Type} : Dict α → String → α → Dict α
  | [], k, v => [(k, v)]
  | (k', v') :: rest, k, v =>
      if k' = k then (k, v) :: rest else (k', v') :: dset rest k v

/-- Python `k in m`. -/
def dcontains {α : Type} (m : Dict α) (k : String) : Bool :=
  (dget? m k).isSome

/-- Number of bindings carrying the key `k`. -/
def dcountKey {α : Type} : Dict α → String → Nat
  | [], _ => 0
  | (k', _) :: rest, k => (if k' = k then 1 else 0) + dcountKey rest k

/-- The keys of the dict are pairwise distinct (the Python dict invariant). -/
def DNodupKeys {α : Type} (m : Dict α) : Prop :=
  (m.map Prod.fst).Nodup

instance {α : Type} (m : Dict α) : Decidable (DNodupKeys m) := by
  unfold DNodupKeys
  infer_instance

/-! ## Embedding of `src/a2a/server.py` -/



namespace A2ASrv



/-- Opaque payload dict (Python `Dict[str, Any]` holding serialisable data). -/
abbrev Payload := Dict String

/-- The `Task` pydantic model of `src/a2a/server.py`.  Field defaults mirror
the pydantic defaults; the uuid and timestamp default factories are made
explicit arguments where a task is built. -/
structure Task where
  task_id : String
  capability : String
  parameters : Payload
  priority : String := "medium"
  callback_url : Option String := none
  status : String := "pending"
  result : Option Payload := none
  error : Option Payload := none
  created_at : String
  updated_at : String
  deriving Repr, DecidableEq

/-- The `Message` pydantic model (content kept opaque; enough for the store). -/
structure Message where
  message_id : String
  task_id : String
  from_agent : String
  to_agent : String
  content : Payload
  timestamp : String
  deriving Repr, DecidableEq

/-- A Python exception: its class name and its `str(e)` rendering. -/
structure PyExn where
  exnClass : String
  msg : String
  deriving Repr, DecidableEq

/-- A capability handler: `await handler(task.parameters)` either returns a
result payload or raises. -/
abbrev Handler := Payload → Except PyExn Payload

/-- The mutable state of an `A2AServer` instance: the in-memory `tasks` and
`messages` stores and the registered `capability_handlers`. -/
structure ServerState where
  tasks : Dict Task
  messages : Dict (List Message)
  capability_handlers : Dict Handler

/-- A FastAPI `HTTPException` (status code and detail string). -/
structure HTTPEx where
  statusCode : Nat
  detail : String
  deriving Repr, DecidableEq

/-- The body of `POST /api/v1/tasks` as constrained by the external interface
(`{capability, parameters, priority?, callback_url?}`); omitted fields take
the pydantic model defaults when the body is parsed into a `Task`. -/
structure CreateTaskRequest where
  capability : String
  parameters : Payload
  priority : Option String := none
  callback_url : Option String := none
  deriving Repr, DecidableEq

/-- Parsing a create request into the `Task` model: absent fields receive the
model defaults (`status := "pending"`, no result, no error); `task_id` and the
timestamps come from the default factories, passed in explicitly. -/
def Task.ofRequest (r : CreateTaskRequest) (fresh_id now : String) : Task :=
  { task_id := fresh_id
    capability := r.capability
    parameters := r.parameters
    priority := r.priority.getD "medium"
    callback_url := r.callback_url
    created_at := now
    updated_at := now }

/-- `create_task` route: reject with 400 when the capability has no registered
handler (state unchanged), else store the task, create its empty message list
and return the stored snapshot.  (The background `_process_task` dispatch is
modelled separately by `process_task_in_store`.) -/
def create_task (s : ServerState) (task : Task) :
    ServerState × Except HTTPEx Task :=
  if (dcontains s.capability_handlers task.capability) = false then
    (s, Except.error { statusCode := 400
                       detail := "Capability " ++ task.capability ++ " not supported" })
  else
    ({ s with tasks := dset s.tasks task.task_id task
              messages := dset s.messages task.task_id [] },
     Except.ok task)

/-- `get_task` route: 404 when unknown, else the stored snapshot. -/
def get_task (s : ServerState) (task_id : String) :
    ServerState × Except HTTPEx Task :=
  match dget? s.tasks task_id with
  | none => (s, Except.error { statusCode := 404
                               detail := "Task " ++ task_id ++ " not found" })
  | some t => (s, Except.ok t)

/-- The body of `PUT /api/v1/tasks/id`: the route copies each of the allowed
fields `status`, `result`, `error` onto the task when present in the body. -/
structure TaskUpdate where
  status : Option String := none
  result : Option Payload := none
  error : Option Payload := none
  deriving Repr, DecidableEq

/-- `update_task` route: 404 when unknown; otherwise overwrite the supplied
fields (no validation of the value or of the status transition) and refresh
`updated_at`. -/
def update_task (s : ServerState) (task_id : String) (u : TaskUpdate)
    (now : String) : ServerState × Except HTTPEx Task :=
  match dget? s.tasks task_id with
  | none => (s, Except.error { statusCode := 404
                               detail := "Task " ++ task_id ++ " not found" })
  | some t =>
      let t2 : Task :=
        { t with status := u.status.getD t.status
                 result := match u.result with
                   | some r => some r
                   | none => t.result
                 error := match u.error with
                   | some e => some e
                   | none => t.error
                 updated_at := now }
      ({ s with tasks := dset s.tasks task_id t2 }, Except.ok t2)

/-- `delete_task` route: 404 when unknown; otherwise mark the task `canceled`
(whatever its current status — the route performs no status check) and refresh
`updated_at`. -/
def delete_task (s : ServerState) (task_id : String) (now : String) :
    ServerState × Except HTTPEx String :=
  match dget? s.tasks task_id with
  | none => (s, Except.error { statusCode := 404
                               detail := "Task " ++ task_id ++ " not found" })
  | some t =>
      let t2 : Task := { t with status := "canceled", updated_at := now }
      ({ s with tasks := dset s.tasks task_id t2 },
       Except.ok ("Task " ++ task_id ++ " canceled"))

/-- `_process_task`: set the task `in_progress`, look up and run the handler
(raising `ValueError` when none is registered — caught by the same `except`),
then record `result`/`completed` or `error`/`failed`; the `finally` block
refreshes `updated_at`.  `now1` and `now2` are the two `utcnow()` readings. -/
def process_task (handlers : Dict Handler) (t : Task) (now1 now2 : String) :
    Task :=
  let t1 : Task := { t with status := "in_progress", updated_at := now1 }
  let t2 : Task :=
    match dget? handlers t1.capability with
    | none =>
        { t1 with error := some [("message",
              "No handler registered for capability " ++ t1.capability),
              ("type", "ValueError")]
                  status := "failed" }
    | some h =>
        match h t1.parameters with
        | Except.ok r => { t1 with result := some r, status := "completed" }
        | Except.error e =>
            { t1 with error := some [("message", e.msg), ("type", e.exnClass)]
                      status := "failed" }
  { t2 with updated_at := now2 }

/-- The HTTP requests `_process_task` makes to the callback URL in its
`finally` block.  The source reads `if task.callback_url:` with a bare `pass`
as the whole branch body, so no request is ever issued. -/
def callback_requests (t : Task) : List String :=
  match t.callback_url with
  | some _ => []
  | none => []

/-- `_process_task` mutates the stored task object in place; since the store
holds the task under its `task_id`, this equals writing the processed task
back under the same key. -/
def process_task_in_store (s : ServerState) (task_id now1 now2 : String) :
    ServerState :=
  match dget? s.tasks task_id with
  | none => s
  | some t =>
      let t2 := process_task s.capability_handlers t now1 now2
      { s with tasks := dset s.tasks task_id t2 }

end A2ASrv



namespace A2ASrv



/-- A handler that returns its parameters unchanged (an `echo` capability). -/
def echoHandler : Handler := fun p => Except.ok p

/-- A server whose only registered capability handler is `echo`. -/
def demoSrv : ServerState :=
  { tasks := [], messages := [], capability_handlers := [("echo", echoHandler)] }

/-- A create request for the registered `echo` capability. -/
def demoReq : CreateTaskRequest :=
  { capability := "echo", parameters := [("x", "1")] }

/-- A create request for a capability no handler is registered for. -/
def demoReqBad : CreateTaskRequest :=
  { capability := "nope", parameters := [] }

/-- Server after accepting the `echo` task `t1`. -/
def demoCreated : ServerState :=
  (create_task demoSrv (Task.ofRequest demoReq "t1" "now0")).1

/-- Server after the background dispatcher processed `t1` (it completes). -/
def demoProcessed : ServerState :=
  process_task_in_store demoCreated "t1" "now1" "now2"

end A2ASrv



namespace A2ASrv



/-- A handler that always raises. -/
def boomHandler : Handler :=
  fun _ => Except.error { exnClass := "RuntimeError", msg := "boom" }

/-- The pending `boom` task `t2`. -/
def demoBoomTask : Task :=
  Task.ofRequest { capability := "boom", parameters := [] } "t2" "now0"

/-- A server with `echo` and `boom` capabilities, holding the completed echo
task `t1` and the pending boom task `t2`. -/
def demoSrv2 : ServerState :=
  { tasks := dset demoProcessed.tasks "t2" demoBoomTask
    messages := demoProcessed.messages
    capability_handlers := [("echo", echoHandler), ("boom", boomHandler)] }

/-- The snapshot of `t1` after the background dispatcher completed it. -/
def demoTaskDone : Task :=
  process_task demoSrv.capability_handlers
    (Task.ofRequest demoReq "t1" "now0") "now1" "now2"

end A2ASrv



/-! ## Embedding of `src/a2a/client.py` -/



namespace A2ACli



/-- One entry of an agent card's `capabilities` list (`cap.get("name")`). -/
structure CapabilityEntry where
  name : String
  description : String := ""
  deriving Repr, DecidableEq

/-- An agent card as cached by `discover_agent` in the client registry. -/
structure AgentCard where
  name : String
  endpoint : String
  capabilities : List CapabilityEntry
  deriving Repr, DecidableEq

/-- The `A2AClient` state: its identity and the local `agent_registry`. -/
structure A2AClient where
  agent_name : String
  agent_version : String
  agent_registry : Dict AgentCard
  deriving Repr, DecidableEq

/-- The JSON body `create_task` builds and POSTs. -/
structure TaskBody where
  task_id : String
  capability : String
  parameters : A2ASrv.Payload
  priority : String
  created_at : String
  status : String
  callback_url : Option String
  deriving Repr, DecidableEq

/-- The single network request `create_task` can perform: a POST of the task
body to the cached card's endpoint.  The error paths return before this
request is built, so no request exists there. -/
structure PostRequest where
  endpoint : String
  body : TaskBody
  deriving Repr, DecidableEq

/-- The `capability_exists` loop over the cached card's capability list. -/
def capability_exists (card : AgentCard) (capability : String) : Bool :=
  card.capabilities.any fun cap => cap.name == capability

/-- `A2AClient.create_task`: look the agent up in the local registry (raising
`ValueError` when absent), check the requested capability against the cached
card (raising when undeclared), and only then build and POST the task body.
The client state is returned unchanged — the method never writes to the
registry. -/
def create_task (c : A2AClient) (agent_name capability : String)
    (parameters : A2ASrv.Payload) (priority : String)
    (callback_url : Option String) (fresh_id now : String) :
    A2AClient × Except String PostRequest :=
  match dget? c.agent_registry agent_name with
  | none =>
      (c, Except.error ("Agent " ++ agent_name ++
        " not found in registry. Discover it first."))
  | some card =>
      if capability_exists card capability = false then
        (c, Except.error ("Capability " ++ capability ++
          " not found in agent " ++ agent_name))
      else
        (c, Except.ok
          { endpoint := card.endpoint
            body := { task_id := fresh_id
                      capability := capability
                      parameters := parameters
                      priority := priority
                      created_at := now
                      status := "pending"
                      callback_url := callback_url } })

/-- A client that has discovered one agent, `market`, declaring `analyze`. -/
def demoClient : A2AClient :=
  { agent_name := "orchestrator"
    agent_version := "1.0"
    agent_registry :=
      [("market", { name := "market"
                    endpoint := "http://market:8000/api/v1/tasks"
                    capabilities := [{ name := "analyze" }] })] }

end A2ACli



/-! ## Embedding of `_execute_workflow_steps` in
`src/agents/orchestration/agent.py` -/



namespace OrchWf



/-- A value in a step's parameter dict: the workflow parameters are opaque
(strings), and each previous step's whole result dict is copied in under the
key `capability ++ "_result"`. -/
inductive PVal where
  | str : String → PVal
  | dict : A2ASrv.Payload → PVal
  deriving Repr, DecidableEq

/-- A step parameter dict. -/
abbrev Params := Dict PVal

/-- One step of a configured workflow template: the target `agent` and the
`capability` to invoke. -/
structure ConfigStep where
  agent : String
  capability : String
  deriving Repr, DecidableEq

/-- The outcome the engine observes for one step: the polled task reaches
`completed` with a result dict, reaches `failed` with its error dict (the
`.get("error", {"message": "Unknown error"})` read), or some call in the
step body — discovery, task creation, polling — raises with `str(e)`. -/
inductive StepOutcome where
  | completed : A2ASrv.Payload → StepOutcome
  | failed : A2ASrv.Payload → StepOutcome
  | exn : String → StepOutcome
  deriving Repr, DecidableEq

/-- Whether the outcome is the successful one. -/
def StepOutcome.isCompleted : StepOutcome → Bool
  | completed _ => true
  | _ => false

/-- A step record appended to `workflow["steps"]`. -/
structure WStep where
  step_id : Nat
  agent : String
  capability : String
  status : String
  parameters : Params
  result : Option A2ASrv.Payload := none
  error : Option A2ASrv.Payload := none
  deriving Repr, DecidableEq

/-- The `workflow["error"]` record written when a step fails. -/
structure WfError where
  message : String
  step : Nat
  error : A2ASrv.Payload
  deriving Repr, DecidableEq

/-- The workflow dict built by `execute_workflow`. -/
structure Workflow where
  id : String
  name : String
  status : String
  steps : List WStep
  parameters : Params
  result : Option (Dict A2ASrv.Payload) := none
  error : Option WfError := none
  created_at : String
  updated_at : String
  deriving Repr, DecidableEq

/-- `workflow["steps"][-1] = f(workflow["steps"][-1])`. -/
def modifyLast {α : Type} (f : α → α) : List α → List α
  | [] => []
  | [a] => [f a]
  | a :: rest => a :: modifyLast f rest

/-- `step_params`: a copy of the workflow parameters with every previous
result inserted under `prev_step ++ "_result"`, in insertion order of
`step_results`. -/
def buildStepParams (workflow_params : Params)
    (step_results : Dict A2ASrv.Payload) : Params :=
  step_results.foldl (fun p kv => dset p (kv.1 ++ "_result") (PVal.dict kv.2))
    workflow_params

/-- The loop body of `_execute_workflow_steps`: for each configured step,
append an `in_progress` record, observe the step outcome, and either record
the result and continue, or record the failure, mark the whole workflow
`failed` and return (no later step is ever appended or submitted).  When all
steps ran, mark the workflow `completed` with the accumulated results.  The
clock is abstracted to the single reading `now`. -/
def execute_steps (env : Nat → StepOutcome) (now : String) :
    List ConfigStep → Nat → Dict A2ASrv.Payload → Workflow → Workflow
  | [], _, step_results, w =>
      { w with status := "completed"
               result := some step_results
               updated_at := now }
  | step :: rest, i, step_results, w =>
      let step_params := buildStepParams w.parameters step_results
      let rec0 : WStep := { step_id := i + 1
                            agent := step.agent
                            capability := step.capability
                            status := "in_progress"
                            parameters := step_params }
      let w1 : Workflow := { w with steps := w.steps ++ [rec0]
                                    updated_at := now }
      match env i with
      | StepOutcome.completed res =>
          let w2 : Workflow := { w1 with
            steps := modifyLast
              (fun r => { r with status := "completed", result := some res })
              w1.steps }
          execute_steps env now rest (i + 1)
            (dset step_results step.capability res) w2
      | StepOutcome.failed err =>
          let w2 : Workflow := { w1 with
            steps := modifyLast
              (fun r => { r with status := "failed", error := some err })
              w1.steps }
          let werr : WfError :=
            { message := "Workflow step " ++ toString (i + 1) ++ " failed"
              step := i + 1
              error := err }
          { w2 with status := "failed"
                    error := some werr
                    updated_at := now }
      | StepOutcome.exn m =>
          let err : A2ASrv.Payload := [("message", m)]
          let w2 : Workflow := { w1 with
            steps := modifyLast
              (fun r => { r with status := "failed", error := some err })
              w1.steps }
          let werr : WfError :=
            { message := "Workflow step " ++ toString (i + 1) ++ " failed"
              step := i + 1
              error := err }
          { w2 with status := "failed"
                    error := some werr
                    updated_at := now }

/-- The workflow dict as `execute_workflow` creates it before spawning
`_execute_workflow_steps`: status `in_progress`, no steps yet. -/
def initial_workflow (fresh_id name : String) (params : Params)
    (now : String) : Workflow :=
  { id := fresh_id
    name := name
    status := "in_progress"
    steps := []
    parameters := params
    created_at := now
    updated_at := now }

/-- A full run of `_execute_workflow_steps` on a fresh workflow. -/
def run_workflow (env : Nat → StepOutcome) (cfg : List ConfigStep)
    (fresh_id name : String) (params : Params) (now : String) : Workflow :=
  execute_steps env now cfg 0 [] (initial_workflow fresh_id name params now)

end OrchWf



/-! ## Embedding of `src/src/workflows/base_workflow.py` -/



namespace BaseWF



/-- The `StepStatus` enum. -/
inductive StepStatus where
  | PENDING
  | RUNNING
  | COMPLETED
  | FAILED
  | SKIPPED
  deriving Repr, DecidableEq

/-- The `WorkflowStep` dataclass: the step function takes the workflow
parameters and either returns a result or raises. -/
structure WorkflowStep where
  name : String
  f : A2ASrv.Payload → Except String A2ASrv.Payload
  description : String
  status : StepStatus := StepStatus.PENDING
  result : Option A2ASrv.Payload := none

/-- The `BaseWorkflow` object (the subclass hook `define_steps` has already
populated `steps`). -/
structure BaseWorkflow where
  id : String
  name : String
  description : String
  parameters : A2ASrv.Payload
  steps : List WorkflowStep
  current_step_index : Nat

/-- The dict `execute_step` returns: `{"status": "success", "result": r}` or
`{"status": "error", "message": m}`. -/
inductive ExecResult where
  | success : A2ASrv.Payload → ExecResult
  | error : String → ExecResult

/-- `result["status"] == "error"`. -/
def ExecResult.isError : ExecResult → Bool
  | error _ => true
  | success _ => false

/-- `execute_step`: out-of-range indices give an error result with the
workflow untouched; otherwise the step is set RUNNING, its function runs on
the workflow parameters, and the step ends COMPLETED with its result stored,
or FAILED when the function raises. -/
def execute_step (w : BaseWorkflow) (step_index : Nat) :
    BaseWorkflow × ExecResult :=
  if h : step_index < w.steps.length then
    let step := w.steps.get ⟨step_index, h⟩
    let running : WorkflowStep := { step with status := StepStatus.RUNNING }
    let w1 : BaseWorkflow := { w with steps := w.steps.set step_index running }
    match step.f w.parameters with
    | Except.ok r =>
        let done : WorkflowStep :=
          { step with status := StepStatus.COMPLETED, result := some r }
        ({ w1 with steps := w1.steps.set step_index done },
         ExecResult.success r)
    | Except.error e =>
        let bad : WorkflowStep := { step with status := StepStatus.FAILED }
        ({ w1 with steps := w1.steps.set step_index bad },
         ExecResult.error ("Error executing step " ++ step.name ++ ": " ++ e))
  else
    (w, ExecResult.error ("Step index " ++ toString step_index ++
      " out of range for workflow " ++ w.name))

/-- `execute_next_step`: run the current step and advance the index only on
success. -/
def execute_next_step (w : BaseWorkflow) : BaseWorkflow × ExecResult :=
  let p := execute_step w w.current_step_index
  match p.2 with
  | ExecResult.success _ =>
      ({ p.1 with current_step_index := p.1.current_step_index + 1 }, p.2)
  | ExecResult.error _ => (p.1, p.2)

/-- The `while` loop of `execute_all_steps`, with explicit fuel: every
iteration that does not break advances `current_step_index` by one, so
`w.steps.length` iterations bound the whole loop. -/
def execute_all_steps_loop :
    Nat → BaseWorkflow → List ExecResult → BaseWorkflow × List ExecResult
  | 0, w, results => (w, results)
  | fuel + 1, w, results =>
      if w.current_step_index < w.steps.length then
        let p := execute_next_step w
        if p.2.isError = true then (p.1, results ++ [p.2])
        else execute_all_steps_loop fuel p.1 (results ++ [p.2])
      else (w, results)

/-- `execute_all_steps`: reset the index to 0 and run every step in order,
stopping at the first error result. -/
def execute_all_steps (w : BaseWorkflow) : BaseWorkflow × List ExecResult :=
  execute_all_steps_loop w.steps.length { w with current_step_index := 0 } []

/-- Whether the function of step `k` succeeds on the workflow parameters
(both are immutable during `execute_all_steps`, so this is loop-invariant). -/
def stepFnOk (w : BaseWorkflow) (k : Nat) : Bool :=
  match w.steps[k]? with
  | some st =>
      match st.f w.parameters with
      | Except.ok _ => true
      | Except.error _ => false
  | none => false

end BaseWF



namespace OrchWf



/-- The `in_progress` record appended for step `i`. -/
def inProgressRec (step : ConfigStep) (i : Nat) (p : Params) : WStep :=
  { step_id := i + 1
    agent := step.agent
    capability := step.capability
    status := "in_progress"
    parameters := p }

end OrchWf



namespace BaseWF



/-- The workflow with step `idx` replaced (notation for the `steps.set`
updates `execute_step` performs). -/
def withStep (w : BaseWorkflow) (idx : Nat) (st : WorkflowStep) :
    BaseWorkflow :=
  { w with steps := w.steps.set idx st }

/-- The workflow after a successful `execute_next_step` at `idx`: the step is
replaced and the index advanced. -/
def advanceDone (w : BaseWorkflow) (idx : Nat) (st : WorkflowStep) :
    BaseWorkflow :=
  { w with steps := w.steps.set idx st
           current_step_index := idx + 1 }

end BaseWF



namespace OrchWf



/-- Step outcomes where the second step's task fails and all others
complete. -/
def demoEnv : Nat → StepOutcome := fun k =>
  if k = 0 then StepOutcome.completed [("signal", "buy")]
  else StepOutcome.failed [("message", "order rejected")]

/-- A three-step workflow template. -/
def demoCfg : List ConfigStep :=
  [{ agent := "market_analysis", capability := "analyze_market" },
   { agent := "trade_execution", capability := "execute_trade" },
   { agent := "reporting", capability := "generate_report" }]

end OrchWf



namespace BaseWF



/-- A three-step base workflow whose middle step raises. -/
def demoBaseWf : BaseWorkflow :=
  { id := "wf1"
    name := "demo"
    description := "demo workflow"
    parameters := [("x", "1")]
    steps :=
      [{ name := "s0", f := fun p => Except.ok p, description := "first" },
       { name := "s1", f := fun _ => Except.error "boom"
         description := "second" },
       { name := "s2", f := fun p => Except.ok p, description := "third" }]
    current_step_index := 0 }

end BaseWF



/-! ## Embedding of the second `Workflow` class (string statuses) in
`src/src/agents/orchestration_agent.py` -/



namespace WF2



/-- The string-status `WorkflowStep` class. -/
structure WorkflowStep where
  step_id : String
  step_name : String
  agent_id : String
  status : String := "pending"
  start_time : Option String := none
  end_time : Option String := none
  result : Option A2ASrv.Payload := none
  error : Option String := none
  deriving Repr, DecidableEq

/-- The string-status `Workflow` class. -/
structure Workflow where
  workflow_id : String
  workflow_name : String
  parameters : A2ASrv.Payload := []
  steps : List WorkflowStep := []
  status : String := "pending"
  created_at : String
  updated_at : String
  estimated_completion : Option String := none
  deriving Repr, DecidableEq

/-- `step.status == "failed"`. -/
def stepFailed (s : WorkflowStep) : Bool := s.status == "failed"

/-- `step.status == "completed"`. -/
def stepCompleted (s : WorkflowStep) : Bool := s.status == "completed"

/-- `step.status == "in_progress"`. -/
def stepInProgress (s : WorkflowStep) : Bool := s.status == "in_progress"

/-- `Workflow.update_status`: failed when any step failed; completed when
all steps are completed *and the step list is non-empty* (the Python
`and self.steps` truthiness check); in_progress when any step is
in progress; otherwise pending. -/
def update_status (w : Workflow) (now : String) : Workflow :=
  let w1 : Workflow := { w with updated_at := now }
  if w1.steps.any stepFailed then { w1 with status := "failed" }
  else if w1.steps.all stepCompleted && !w1.steps.isEmpty then
    { w1 with status := "completed" }
  else if w1.steps.any stepInProgress then { w1 with status := "in_progress" }
  else { w1 with status := "pending" }

/-- A stored workflow with no steps. -/
def emptyWorkflow : Workflow :=
  { workflow_id := "workflow-0"
    workflow_name := "market_analysis_and_trade"
    status := "in_progress"
    created_at := "t0"
    updated_at := "t0" }

end WF2



/-! ## Embedding of the first `OrchestrationAgent` class in
`src/src/agents/orchestration_agent.py` -/



namespace MCPA



/-- The `StepStatus` enum. -/
inductive StepStatus where
  | PENDING
  | RUNNING
  | COMPLETED
  | FAILED
  deriving Repr, DecidableEq

/-- The `WorkflowStatus` enum. -/
inductive WorkflowStatus where
  | CREATED
  | RUNNING
  | COMPLETED
  | FAILED
  | PAUSED
  deriving Repr, DecidableEq

/-- The `AgentStatus` enum. -/
inductive AgentStatus where
  | AVAILABLE
  | BUSY
  | ERROR
  | OFFLINE
  deriving Repr, DecidableEq

/-- The `WorkflowStep` dataclass (with `depends_on`). -/
structure WorkflowStep where
  id : String
  name : String
  agent_id : String
  parameters : A2ASrv.Payload := []
  depends_on : List String := []
  status : StepStatus := StepStatus.PENDING
  result : Option A2ASrv.Payload := none
  error_message : Option String := none
  started_at : Option String := none
  completed_at : Option String := none
  deriving Repr, DecidableEq

/-- The `Workflow` dataclass: fresh uuid id and status CREATED by default. -/
structure Workflow where
  name : String
  id : String
  steps : List WorkflowStep := []
  status : WorkflowStatus := WorkflowStatus.CREATED
  started_at : Option String := none
  completed_at : Option String := none
  context : A2ASrv.Payload := []
  deriving Repr, DecidableEq

/-- The `Agent` dataclass. -/
structure Agent where
  id : String
  name : String
  description : String
  functions : List String
  status : AgentStatus := AgentStatus.AVAILABLE
  last_active : String
  metadata : A2ASrv.Payload := []
  deriving Repr, DecidableEq

/-- The `agent_data` dict passed to `register_agent`: each `.get(key,
default)` read is an optional field. -/
structure AgentData where
  id : Option String := none
  name : Option String := none
  description : Option String := none
  functions : Option (List String) := none
  metadata : Option A2ASrv.Payload := none
  deriving Repr, DecidableEq

/-- The `Agent(...)` construction inside `register_agent`, with the uuid
default factory and `datetime.now()` passed in explicitly. -/
def Agent.ofData (d : AgentData) (fresh_uuid now : String) : Agent :=
  { id := d.id.getD fresh_uuid
    name := d.name.getD "Unknown Agent"
    description := d.description.getD ""
    functions := d.functions.getD []
    last_active := now
    metadata := d.metadata.getD [] }

/-- A `get_workflow` hook of a loaded workflow module: builds a workflow
from the parameters or raises. -/
abbrev WorkflowModule := A2ASrv.Payload → Except String Workflow

/-- The orchestration agent state: registries for agents, the
function-to-agent mapping, workflows, and the loaded workflow modules. -/
structure AgentState where
  agents : Dict Agent
  function_to_agent : Dict String
  workflows : Dict Workflow
  workflow_modules : Dict WorkflowModule

/-- `register_agent`: build the `Agent` from the data dict, store it under
its id (a plain dict write — an upsert), and point every declared function
at it. -/
def register_agent (st : AgentState) (d : AgentData)
    (fresh_uuid now : String) : AgentState × Agent :=
  let agent := Agent.ofData d fresh_uuid now
  let fmap := agent.functions.foldl (fun m fn => dset m fn agent.id)
    st.function_to_agent
  ({ st with agents := dset st.agents agent.id agent
             function_to_agent := fmap },
   agent)

/-- `create_workflow`: unknown workflow types are rejected; otherwise the
module's `get_workflow` runs and the resulting workflow is stored under its
id (a raising module maps to the wrapped `ValueError`).  No validation of
the steps or their `depends_on` references is performed anywhere. -/
def create_workflow (st : AgentState) (workflow_type : String)
    (parameters : A2ASrv.Payload) :
    AgentState × Except String Workflow :=
  match dget? st.workflow_modules workflow_type with
  | none => (st, Except.error ("Unknown workflow type: " ++ workflow_type))
  | some get_workflow =>
      match get_workflow parameters with
      | Except.error e =>
          (st, Except.error ("Workflow creation failed: " ++ e))
      | Except.ok wf =>
          ({ st with workflows := dset st.workflows wf.id wf },
           Except.ok wf)

/-- A workflow whose two steps depend on each other — a `depends_on`
cycle. -/
def cyclicWorkflow : Workflow :=
  { name := "cyclic analysis"
    id := "wf-cyc"
    steps := [{ id := "s1", name := "one", agent_id := "a1"
                depends_on := ["s2"] },
              { id := "s2", name := "two", agent_id := "a2"
                depends_on := ["s1"] }] }

/-- An agent state whose only workflow module returns `cyclicWorkflow`. -/
def demoAgentState : AgentState :=
  { agents := []
    function_to_agent := []
    workflows := []
    workflow_modules := [("cyclic", fun _ => Except.ok cyclicWorkflow)] }

end MCPA



/-! ## Theorems -/

theorem dget?_dset_self {α : Type} (m : Dict α) (k : String) (v : α) :
    dget? (dset m k v) k = some v := by
  induction m with
  | nil => simp [dset, dget?]
  | cons hd tl ih =>
      by_cases h : hd.1 = k
      · simp [dset, dget?, h]
      · simp [dset, dget?, h, ih]

theorem dget?_dset_ne {α : Type} (m : Dict α) (k k' : String) (v : α)
    (h : k' ≠ k) : dget? (dset m k v) k' = dget? m k' := by
  have h2 : k ≠ k' := Ne.symm h
  induction m with
  | nil => simp [dset, dget?, h2]
  | cons hd tl ih =>
      by_cases hk : hd.1 = k
      · subst hk
        simp [dset, dget?, h2]
      · simp only [dset]
        rw [if_neg hk]
        simp [dget?, ih]

theorem dset_keys_subset {α : Type} (m : Dict α) (k k' : String) (v : α)
    (hmem : k' ∈ (dset m k v).map Prod.fst) : k' ∈ m.map Prod.fst ∨ k' = k := by
  induction m with
  | nil => simpa [dset] using hmem
  | cons hd tl ih =>
      by_cases hk : hd.1 = k
      · subst hk
        simp only [dset, if_pos rfl] at hmem
        rcases (by simpa using hmem) with h | h
        · right; exact h
        · left; simp [h]
      · simp only [dset, if_neg hk] at hmem
        rcases (by simpa using hmem) with h | h
        · left; simp [h]
        · rcases ih (by simpa using h) with h2 | h2
          · left; simp [h2]
          · right; exact h2

theorem dnodup_dset {α : Type} (m : Dict α) (k : String) (v : α)
    (h : DNodupKeys m) : DNodupKeys (dset m k v) := by
  induction m with
  | nil => simp [DNodupKeys, dset]
  | cons hd tl ih =>
      unfold DNodupKeys at h
      simp only [List.map_cons, List.nodup_cons] at h
      by_cases hk : hd.1 = k
      · unfold DNodupKeys
        simp only [dset]
        rw [if_pos hk]
        simp only [List.map_cons, List.nodup_cons]
        exact ⟨hk ▸ h.1, h.2⟩
      · unfold DNodupKeys
        simp only [dset]
        rw [if_neg hk]
        simp only [List.map_cons, List.nodup_cons]
        refine ⟨?_, ih h.2⟩
        intro hmem
        rcases dset_keys_subset tl k hd.1 v hmem with h2 | h2
        · exact h.1 h2
        · exact hk h2

theorem dcountKey_eq_zero {α : Type} (m : Dict α) (k : String)
    (h : k ∉ m.map Prod.fst) : dcountKey m k = 0 := by
  induction m with
  | nil => rfl
  | cons hd tl ih =>
      simp only [List.map_cons, List.mem_cons, not_or] at h
      simp only [dcountKey]
      rw [if_neg (show ¬ hd.1 = k from fun hc => h.1 hc.symm)]
      simpa using ih h.2

theorem dcountKey_dset_self {α : Type} (m : Dict α) (k : String) (v : α)
    (h : DNodupKeys m) : dcountKey (dset m k v) k = 1 := by
  induction m with
  | nil => simp [dset, dcountKey]
  | cons hd tl ih =>
      unfold DNodupKeys at h
      simp only [List.map_cons, List.nodup_cons] at h
      by_cases hk : hd.1 = k
      · subst hk
        simp [dset, dcountKey, dcountKey_eq_zero tl hd.1 h.1]
      · simp only [dset]
        rw [if_neg hk]
        simp only [dcountKey]
        rw [if_neg hk, ih h.2]

/-- Claim C2: a create-task request naming a capability with no registered
handler fails with the 400 capability-not-supported error and leaves the
server state (in particular the task store) unchanged; a request naming a
registered capability stores a task and returns its snapshot, whose status is
`pending`. -/
theorem create_task_capability_guard
    (s : A2ASrv.ServerState) (rBad rOk : A2ASrv.CreateTaskRequest)
    (idBad idOk nowBad nowOk : String)
    (hBad : dget? s.capability_handlers rBad.capability = none)
    (hOk : (dget? s.capability_handlers rOk.capability).isSome = true) :
    (A2ASrv.create_task s (A2ASrv.Task.ofRequest rBad idBad nowBad)).1 = s ∧
    (A2ASrv.create_task s (A2ASrv.Task.ofRequest rBad idBad nowBad)).2 =
      Except.error { statusCode := 400
                     detail := "Capability " ++ rBad.capability ++ " not supported" } ∧
    (A2ASrv.create_task s (A2ASrv.Task.ofRequest rOk idOk nowOk)).2 =
      Except.ok (A2ASrv.Task.ofRequest rOk idOk nowOk) ∧
    dget? (A2ASrv.create_task s (A2ASrv.Task.ofRequest rOk idOk nowOk)).1.tasks
        idOk = some (A2ASrv.Task.ofRequest rOk idOk nowOk) ∧
    (A2ASrv.Task.ofRequest rOk idOk nowOk).status = "pending" := by
  refine ⟨?_, ?_, ?_, ?_, rfl⟩
  · simp [A2ASrv.create_task, A2ASrv.Task.ofRequest, dcontains, hBad]
  · simp [A2ASrv.create_task, A2ASrv.Task.ofRequest, dcontains, hBad]
  · simp [A2ASrv.create_task, A2ASrv.Task.ofRequest, dcontains, hOk]
  · simp [A2ASrv.create_task, A2ASrv.Task.ofRequest, dcontains, hOk,
      dget?_dset_self]

/-- Witness for C2 on a concrete server: `nope` is rejected with the server
unchanged, `echo` is accepted. -/
theorem create_task_capability_guard_witness :
    (A2ASrv.create_task A2ASrv.demoSrv
        (A2ASrv.Task.ofRequest A2ASrv.demoReqBad "t9" "now9")).1 =
      A2ASrv.demoSrv ∧
    (A2ASrv.create_task A2ASrv.demoSrv
        (A2ASrv.Task.ofRequest A2ASrv.demoReqBad "t9" "now9")).2 =
      Except.error { statusCode := 400
                     detail := "Capability " ++ A2ASrv.demoReqBad.capability ++ " not supported" } ∧
    (A2ASrv.create_task A2ASrv.demoSrv
        (A2ASrv.Task.ofRequest A2ASrv.demoReq "t1" "now0")).2 =
      Except.ok (A2ASrv.Task.ofRequest A2ASrv.demoReq "t1" "now0") ∧
    dget? (A2ASrv.create_task A2ASrv.demoSrv
        (A2ASrv.Task.ofRequest A2ASrv.demoReq "t1" "now0")).1.tasks "t1" =
      some (A2ASrv.Task.ofRequest A2ASrv.demoReq "t1" "now0") ∧
    (A2ASrv.Task.ofRequest A2ASrv.demoReq "t1" "now0").status = "pending" :=
  create_task_capability_guard A2ASrv.demoSrv A2ASrv.demoReqBad A2ASrv.demoReq
    "t9" "t1" "now9" "now0" rfl rfl

/-- Claim C6: when the capability handler raises, the task ends `failed` with
an error record carrying the exception class name (machine-readable kind) and
the human message; processing is a total function on the store that leaves
every other task unchanged, and the get endpoint afterwards returns the
snapshot instead of propagating the exception. -/
theorem process_task_handler_exception
    (s : A2ASrv.ServerState) (t : A2ASrv.Task) (h : A2ASrv.Handler)
    (e : A2ASrv.PyExn) (id2 now1 now2 : String)
    (hh : dget? s.capability_handlers t.capability = some h)
    (he : h t.parameters = Except.error e)
    (ht : dget? s.tasks t.task_id = some t)
    (hne : id2 ≠ t.task_id) :
    (A2ASrv.process_task s.capability_handlers t now1 now2).status =
      "failed" ∧
    (A2ASrv.process_task s.capability_handlers t now1 now2).error =
      some [("message", e.msg), ("type", e.exnClass)] ∧
    dget? (A2ASrv.process_task_in_store s t.task_id now1 now2).tasks id2 =
      dget? s.tasks id2 ∧
    (A2ASrv.get_task (A2ASrv.process_task_in_store s t.task_id now1 now2)
        t.task_id).2 =
      Except.ok (A2ASrv.process_task s.capability_handlers t now1 now2) := by
  refine ⟨?_, ?_, ?_, ?_⟩
  · simp [A2ASrv.process_task, hh, he]
  · simp [A2ASrv.process_task, hh, he]
  · simp [A2ASrv.process_task_in_store, ht, dget?_dset_ne _ _ _ _ hne]
  · simp [A2ASrv.process_task_in_store, ht, A2ASrv.get_task, dget?_dset_self]

/-- Witness for C6: processing the `boom` task fails it with the exception
recorded, and leaves the completed `t1` untouched. -/
theorem process_task_handler_exception_witness :
    (A2ASrv.process_task A2ASrv.demoSrv2.capability_handlers
        A2ASrv.demoBoomTask "now5" "now6").status = "failed" ∧
    (A2ASrv.process_task A2ASrv.demoSrv2.capability_handlers
        A2ASrv.demoBoomTask "now5" "now6").error =
      some [("message", "boom"), ("type", "RuntimeError")] ∧
    dget? (A2ASrv.process_task_in_store A2ASrv.demoSrv2 "t2" "now5"
        "now6").tasks "t1" = dget? A2ASrv.demoSrv2.tasks "t1" ∧
    (A2ASrv.get_task (A2ASrv.process_task_in_store A2ASrv.demoSrv2 "t2" "now5"
        "now6") "t2").2 =
      Except.ok (A2ASrv.process_task A2ASrv.demoSrv2.capability_handlers
        A2ASrv.demoBoomTask "now5" "now6") :=
  process_task_handler_exception A2ASrv.demoSrv2 A2ASrv.demoBoomTask
    A2ASrv.boomHandler { exnClass := "RuntimeError", msg := "boom" }
    "t1" "now5" "now6" rfl rfl rfl (by decide)

/-- Counterexample to claim C7 as stated: a task state reached through the
public API (create, background completion, then DELETE) whose status is
`canceled` while `result` is still present — so a non-empty result does not
imply status `completed` over reachable states. -/
theorem task_result_iff_counterexample :
    (dget? (A2ASrv.delete_task A2ASrv.demoProcessed "t1" "now3").1.tasks
        "t1").map A2ASrv.Task.status = some "canceled" ∧
    ((dget? (A2ASrv.delete_task A2ASrv.demoProcessed "t1" "now3").1.tasks
        "t1").bind A2ASrv.Task.result) = some [("x", "1")] ∧
    "canceled" ≠ "completed" :=
  ⟨rfl, rfl, by decide⟩

/-- Claim C7 (amended): along the dispatcher path the biconditionals hold —
starting from a task with empty `result`/`error`, after `_process_task` the
result is present iff the status is `completed` and the error is present iff
the status is `failed`.  The cancel route, however, does not clear those
fields: it only rewrites `status`/`updated_at`, so a canceled task keeps any
previously set result or error. -/
theorem task_result_error_dispatcher_iff
    (handlers : Dict A2ASrv.Handler) (t : A2ASrv.Task) (now1 now2 : String)
    (hr : t.result = none) (he : t.error = none)
    (s : A2ASrv.ServerState) (id nd : String) (t3 : A2ASrv.Task)
    (hid : dget? s.tasks id = some t3) :
    ((A2ASrv.process_task handlers t now1 now2).status = "completed" ↔
      ((A2ASrv.process_task handlers t now1 now2).result).isSome = true) ∧
    ((A2ASrv.process_task handlers t now1 now2).status = "failed" ↔
      ((A2ASrv.process_task handlers t now1 now2).error).isSome = true) ∧
    dget? (A2ASrv.delete_task s id nd).1.tasks id =
      some { t3 with status := "canceled", updated_at := nd } := by
  refine ⟨?_, ?_, ?_⟩
  · rcases hc : dget? handlers t.capability with _ | h
    · simp [A2ASrv.process_task, hc, hr]
    · rcases hres : h t.parameters with e2 | r
      · simp [A2ASrv.process_task, hc, hres, hr]
      · simp [A2ASrv.process_task, hc, hres]
  · rcases hc : dget? handlers t.capability with _ | h
    · simp [A2ASrv.process_task, hc]
    · rcases hres : h t.parameters with e2 | r
      · simp [A2ASrv.process_task, hc, hres]
      · simp [A2ASrv.process_task, hc, hres, he]
  · simp [A2ASrv.delete_task, hid, dget?_dset_self]

/-- Witness for C7 (amended) at the concrete echo server and its stored
completed task. -/
theorem task_result_error_dispatcher_iff_witness :
    ((A2ASrv.process_task A2ASrv.demoSrv.capability_handlers
        (A2ASrv.Task.ofRequest A2ASrv.demoReq "t1" "now0") "now1"
        "now2").status = "completed" ↔
      ((A2ASrv.process_task A2ASrv.demoSrv.capability_handlers
        (A2ASrv.Task.ofRequest A2ASrv.demoReq "t1" "now0") "now1"
        "now2").result).isSome = true) ∧
    ((A2ASrv.process_task A2ASrv.demoSrv.capability_handlers
        (A2ASrv.Task.ofRequest A2ASrv.demoReq "t1" "now0") "now1"
        "now2").status = "failed" ↔
      ((A2ASrv.process_task A2ASrv.demoSrv.capability_handlers
        (A2ASrv.Task.ofRequest A2ASrv.demoReq "t1" "now0") "now1"
        "now2").error).isSome = true) ∧
    dget? (A2ASrv.delete_task A2ASrv.demoProcessed "t1" "now3").1.tasks "t1" =
      some { A2ASrv.demoTaskDone with status := "canceled"
                                      updated_at := "now3" } :=
  task_result_error_dispatcher_iff A2ASrv.demoSrv.capability_handlers
    (A2ASrv.Task.ofRequest A2ASrv.demoReq "t1" "now0") "now1" "now2" rfl rfl
    A2ASrv.demoProcessed "t1" "now3" A2ASrv.demoTaskDone rfl

/-- Claim C8: the dispatcher always drives a processed task to a terminal
status, but it never issues any callback notification: the source callback
branch in the `finally` block is a bare `pass`, so `callback_requests` is
empty whatever `callback_url` is set to. -/
theorem process_task_no_callback_sent
    (handlers : Dict A2ASrv.Handler) (t : A2ASrv.Task) (now1 now2 : String) :
    A2ASrv.callback_requests (A2ASrv.process_task handlers t now1 now2) =
      [] ∧
    ((A2ASrv.process_task handlers t now1 now2).status = "completed" ∨
     (A2ASrv.process_task handlers t now1 now2).status = "failed") := by
  constructor
  · rcases hcb : (A2ASrv.process_task handlers t now1 now2).callback_url with
      _ | u
    · simp [A2ASrv.callback_requests, hcb]
    · simp [A2ASrv.callback_requests, hcb]
  · rcases hc : dget? handlers t.capability with _ | h
    · right
      simp [A2ASrv.process_task, hc]
    · rcases hres : h t.parameters with e2 | r
      · right
        simp [A2ASrv.process_task, hc, hres]
      · left
        simp [A2ASrv.process_task, hc, hres]

/-- Counterexample to claim C1 as stated: a cancel request for a task already
in `completed` is not rejected — `delete_task` succeeds and overwrites the
status with `canceled`, a transition outside the allowed set. -/
theorem task_transitions_counterexample :
    (dget? A2ASrv.demoProcessed.tasks "t1").map A2ASrv.Task.status =
      some "completed" ∧
    ((A2ASrv.delete_task A2ASrv.demoProcessed "t1" "now3").2).isOk = true ∧
    (dget? (A2ASrv.delete_task A2ASrv.demoProcessed "t1" "now3").1.tasks
        "t1").map A2ASrv.Task.status = some "canceled" ∧
    "canceled" ≠ "completed" :=
  ⟨rfl, rfl, rfl, by decide⟩

/-- Claim C1 (amended): the task endpoints perform no transition validation:
DELETE marks any existing task `canceled` whatever its current status, PUT
overwrites `status` with whichever value the body supplies, and only requests
naming an unknown task id are rejected (404) with the store unchanged. -/
theorem task_transitions_amended
    (s : A2ASrv.ServerState) (id idMissing : String) (t : A2ASrv.Task)
    (u : A2ASrv.TaskUpdate) (v now nd : String)
    (h : dget? s.tasks id = some t)
    (hu : u.status = some v)
    (hm : dget? s.tasks idMissing = none) :
    dget? (A2ASrv.delete_task s id nd).1.tasks id =
      some { t with status := "canceled", updated_at := nd } ∧
    ((A2ASrv.delete_task s id nd).2).isOk = true ∧
    (dget? (A2ASrv.update_task s id u now).1.tasks id).map
      A2ASrv.Task.status = some v ∧
    A2ASrv.delete_task s idMissing nd =
      (s, Except.error { statusCode := 404
                         detail := "Task " ++ idMissing ++ " not found" }) ∧
    A2ASrv.update_task s idMissing u now =
      (s, Except.error { statusCode := 404
                         detail := "Task " ++ idMissing ++ " not found" }) := by
  refine ⟨?_, ?_, ?_, ?_, ?_⟩
  · simp [A2ASrv.delete_task, h, dget?_dset_self]
  · simp [A2ASrv.delete_task, h, Except.isOk, Except.toBool]
  · simp [A2ASrv.update_task, h, dget?_dset_self, hu]
  · simp [A2ASrv.delete_task, hm]
  · simp [A2ASrv.update_task, hm]

/-- Witness for C1 (amended): canceling the completed `t1` marks it canceled,
updating it overwrites the status, and the unknown id `zz` is rejected with
the store unchanged. -/
theorem task_transitions_amended_witness :
    dget? (A2ASrv.delete_task A2ASrv.demoProcessed "t1" "now3").1.tasks "t1" =
      some { A2ASrv.demoTaskDone with status := "canceled"
                                      updated_at := "now3" } ∧
    ((A2ASrv.delete_task A2ASrv.demoProcessed "t1" "now3").2).isOk = true ∧
    (dget? (A2ASrv.update_task A2ASrv.demoProcessed "t1"
        { status := some "pending" } "now4").1.tasks "t1").map
      A2ASrv.Task.status = some "pending" ∧
    A2ASrv.delete_task A2ASrv.demoProcessed "zz" "now3" =
      (A2ASrv.demoProcessed,
       Except.error { statusCode := 404
                      detail := "Task " ++ "zz" ++ " not found" }) ∧
    A2ASrv.update_task A2ASrv.demoProcessed "zz"
        { status := some "pending" } "now4" =
      (A2ASrv.demoProcessed,
       Except.error { statusCode := 404
                      detail := "Task " ++ "zz" ++ " not found" }) :=
  task_transitions_amended A2ASrv.demoProcessed "t1" "zz" A2ASrv.demoTaskDone
    { status := some "pending" } "pending" "now4" "now3" rfl rfl rfl

/-- Claim C10: the client create_task raises before any network request when
the agent is absent from the local registry or the capability is not on the
cached card, leaving the registry unchanged; a POST is only ever produced for
a capability the cached card declares, and goes to that card's endpoint. -/
theorem client_create_task_guards
    (c : A2ACli.A2AClient) (aMissing aKnown cBad cOk : String)
    (card : A2ACli.AgentCard) (params : A2ASrv.Payload) (prio : String)
    (cb : Option String) (fid now : String) (req : A2ACli.PostRequest)
    (h1 : dget? c.agent_registry aMissing = none)
    (h2 : dget? c.agent_registry aKnown = some card)
    (h3 : A2ACli.capability_exists card cBad = false)
    (h4 : (A2ACli.create_task c aKnown cOk params prio cb fid now).2 =
      Except.ok req) :
    A2ACli.create_task c aMissing cBad params prio cb fid now =
      (c, Except.error ("Agent " ++ aMissing ++
        " not found in registry. Discover it first.")) ∧
    A2ACli.create_task c aKnown cBad params prio cb fid now =
      (c, Except.error ("Capability " ++ cBad ++
        " not found in agent " ++ aKnown)) ∧
    (A2ACli.create_task c aKnown cOk params prio cb fid now).1 = c ∧
    A2ACli.capability_exists card cOk = true ∧
    req.endpoint = card.endpoint ∧
    req.body.capability = cOk ∧
    req.body.status = "pending" := by
  have hce : A2ACli.capability_exists card cOk = true := by
    by_contra hne
    rw [A2ACli.create_task, h2] at h4
    simp [eq_false_of_ne_true hne] at h4
  have hreq : req =
      { endpoint := card.endpoint
        body := { task_id := fid
                  capability := cOk
                  parameters := params
                  priority := prio
                  created_at := now
                  status := "pending"
                  callback_url := cb } } := by
    rw [A2ACli.create_task, h2] at h4
    simp [hce] at h4
    exact h4.symm
  refine ⟨?_, ?_, ?_, hce, ?_, ?_, ?_⟩
  · simp [A2ACli.create_task, h1]
  · simp [A2ACli.create_task, h2, h3]
  · rw [A2ACli.create_task, h2]
    simp [hce]
  · rw [hreq]
  · rw [hreq]
  · rw [hreq]

/-- Witness for C10 at the concrete one-card client: unknown agent `ghost`
and undeclared capability `trade` are rejected with the client unchanged;
`analyze` yields a POST to the cached endpoint. -/
theorem client_create_task_guards_witness :
    A2ACli.create_task A2ACli.demoClient "ghost" "trade" [] "medium" none
        "t1" "now" =
      (A2ACli.demoClient, Except.error ("Agent " ++ "ghost" ++
        " not found in registry. Discover it first.")) ∧
    A2ACli.create_task A2ACli.demoClient "market" "trade" [] "medium" none
        "t1" "now" =
      (A2ACli.demoClient, Except.error ("Capability " ++ "trade" ++
        " not found in agent " ++ "market")) ∧
    (A2ACli.create_task A2ACli.demoClient "market" "analyze" [] "medium" none
        "t1" "now").1 = A2ACli.demoClient ∧
    A2ACli.capability_exists { name := "market"
                               endpoint := "http://market:8000/api/v1/tasks"
                               capabilities := [{ name := "analyze" }] }
      "analyze" = true ∧
    (A2ACli.PostRequest.endpoint
      { endpoint := "http://market:8000/api/v1/tasks"
        body := { task_id := "t1"
                  capability := "analyze"
                  parameters := []
                  priority := "medium"
                  created_at := "now"
                  status := "pending"
                  callback_url := none } }) = "http://market:8000/api/v1/tasks" ∧
    (A2ACli.TaskBody.capability
      { task_id := "t1"
        capability := "analyze"
        parameters := []
        priority := "medium"
        created_at := "now"
        status := "pending"
        callback_url := none }) = "analyze" ∧
    (A2ACli.TaskBody.status
      { task_id := "t1"
        capability := "analyze"
        parameters := []
        priority := "medium"
        created_at := "now"
        status := "pending"
        callback_url := none }) = "pending" :=
  client_create_task_guards A2ACli.demoClient "ghost" "market" "trade"
    "analyze"
    { name := "market"
      endpoint := "http://market:8000/api/v1/tasks"
      capabilities := [{ name := "analyze" }] }
    [] "medium" none "t1" "now"
    { endpoint := "http://market:8000/api/v1/tasks"
      body := { task_id := "t1"
                capability := "analyze"
                parameters := []
                priority := "medium"
                created_at := "now"
                status := "pending"
                callback_url := none } }
    rfl rfl rfl rfl

theorem modifyLast_append_singleton {α : Type} (f : α → α) (l : List α)
    (a : α) : OrchWf.modifyLast f (l ++ [a]) = l ++ [f a] := by
  induction l with
  | nil => rfl
  | cons hd tl ih =>
      cases tl with
      | nil => rfl
      | cons hd2 tl2 =>
          simp only [List.cons_append] at ih ⊢
          rw [show OrchWf.modifyLast f (hd :: hd2 :: (tl2 ++ [a])) =
            hd :: OrchWf.modifyLast f (hd2 :: (tl2 ++ [a])) from rfl, ih]

theorem orch_execute_steps_cons_completed (env : Nat → OrchWf.StepOutcome)
    (now : String) (step : OrchWf.ConfigStep) (rest : List OrchWf.ConfigStep)
    (i : Nat) (sr : Dict A2ASrv.Payload) (w : OrchWf.Workflow)
    (res : A2ASrv.Payload) (h : env i = OrchWf.StepOutcome.completed res) :
    OrchWf.execute_steps env now (step :: rest) i sr w =
      OrchWf.execute_steps env now rest (i + 1)
        (dset sr step.capability res)
        { w with steps := w.steps ++
            [{ OrchWf.inProgressRec step i
                 (OrchWf.buildStepParams w.parameters sr) with
               status := "completed", result := some res }]
                 updated_at := now } := by
  simp [OrchWf.execute_steps, h, modifyLast_append_singleton,
    OrchWf.inProgressRec]

theorem orch_execute_steps_cons_failed (env : Nat → OrchWf.StepOutcome)
    (now : String) (step : OrchWf.ConfigStep) (rest : List OrchWf.ConfigStep)
    (i : Nat) (sr : Dict A2ASrv.Payload) (w : OrchWf.Workflow)
    (err : A2ASrv.Payload) (h : env i = OrchWf.StepOutcome.failed err) :
    OrchWf.execute_steps env now (step :: rest) i sr w =
      { w with steps := w.steps ++
            [{ OrchWf.inProgressRec step i
                 (OrchWf.buildStepParams w.parameters sr) with
               status := "failed", error := some err }]
               status := "failed"
               error := some { message := "Workflow step " ++ toString (i + 1) ++ " failed"
                               step := i + 1
                               error := err }
               updated_at := now } := by
  simp [OrchWf.execute_steps, h, modifyLast_append_singleton,
    OrchWf.inProgressRec]

theorem orch_execute_steps_cons_exn (env : Nat → OrchWf.StepOutcome)
    (now : String) (step : OrchWf.ConfigStep) (rest : List OrchWf.ConfigStep)
    (i : Nat) (sr : Dict A2ASrv.Payload) (w : OrchWf.Workflow)
    (m : String) (h : env i = OrchWf.StepOutcome.exn m) :
    OrchWf.execute_steps env now (step :: rest) i sr w =
      { w with steps := w.steps ++
            [{ OrchWf.inProgressRec step i
                 (OrchWf.buildStepParams w.parameters sr) with
               status := "failed", error := some [("message", m)] }]
               status := "failed"
               error := some { message := "Workflow step " ++ toString (i + 1) ++ " failed"
                               step := i + 1
                               error := [("message", m)] }
               updated_at := now } := by
  simp [OrchWf.execute_steps, h, modifyLast_append_singleton,
    OrchWf.inProgressRec]

theorem orch_execute_steps_fail (env : Nat → OrchWf.StepOutcome)
    (now : String) :
    ∀ (cfg : List OrchWf.ConfigStep) (i : Nat) (sr : Dict A2ASrv.Payload)
      (w : OrchWf.Workflow) (j : Nat),
      j < cfg.length →
      (∀ k, k < j → (env (i + k)).isCompleted = true) →
      (env (i + j)).isCompleted = false →
      (OrchWf.execute_steps env now cfg i sr w).status = "failed" ∧
      (OrchWf.execute_steps env now cfg i sr w).steps.length =
        w.steps.length + j + 1 ∧
      ((OrchWf.execute_steps env now cfg i sr w).steps[w.steps.length +
        j]?).map OrchWf.WStep.status = some "failed" ∧
      (((OrchWf.execute_steps env now cfg i sr w).steps[w.steps.length +
        j]?).bind OrchWf.WStep.error).isSome = true ∧
      ((OrchWf.execute_steps env now cfg i sr w).error).isSome = true := by
  intro cfg
  induction cfg with
  | nil =>
      intro i sr w j hj hclean hfail
      simp at hj
  | cons step rest ih =>
      intro i sr w j hj hclean hfail
      cases j with
      | zero =>
          have hf : (env i).isCompleted = false := by simpa using hfail
          cases henv : env i with
          | completed res =>
              rw [henv] at hf
              simp [OrchWf.StepOutcome.isCompleted] at hf
          | failed err =>
              rw [orch_execute_steps_cons_failed env now step rest i sr w err
                henv]
              refine ⟨rfl, by simp, ?_, ?_, by simp⟩
              · simp [List.getElem?_concat_length]
              · simp [List.getElem?_concat_length]
          | exn m =>
              rw [orch_execute_steps_cons_exn env now step rest i sr w m henv]
              refine ⟨rfl, by simp, ?_, ?_, by simp⟩
              · simp [List.getElem?_concat_length]
              · simp [List.getElem?_concat_length]
      | succ j2 =>
          have h0 : (env i).isCompleted = true := by
            simpa using hclean 0 (by omega)
          cases henv : env i with
          | failed err =>
              rw [henv] at h0
              simp [OrchWf.StepOutcome.isCompleted] at h0
          | exn m =>
              rw [henv] at h0
              simp [OrchWf.StepOutcome.isCompleted] at h0
          | completed res =>
              rw [orch_execute_steps_cons_completed env now step rest i sr w
                res henv]
              have hclean2 : ∀ k, k < j2 →
                  (env (i + 1 + k)).isCompleted = true := by
                intro k hk
                have := hclean (k + 1) (by omega)
                have harith : i + (k + 1) = i + 1 + k := by omega
                rwa [harith] at this
              have hfail2 : (env (i + 1 + j2)).isCompleted = false := by
                have harith : i + (j2 + 1) = i + 1 + j2 := by omega
                rwa [harith] at hfail
              have IH := ih (i + 1) (dset sr step.capability res)
                { w with steps := w.steps ++
                    [{ OrchWf.inProgressRec step i
                         (OrchWf.buildStepParams w.parameters sr) with
                       status := "completed", result := some res }]
                         updated_at := now }
                j2 (by simpa using hj) hclean2 hfail2
              have hlen : (w.steps ++
                  [{ OrchWf.inProgressRec step i
                       (OrchWf.buildStepParams w.parameters sr) with
                     status := "completed", result := some res }]).length =
                  w.steps.length + 1 := by simp
              refine ⟨IH.1, ?_, ?_, ?_, IH.2.2.2.2⟩
              · rw [IH.2.1, hlen]
                omega
              · have := IH.2.2.1
                rw [hlen] at this
                have harith : w.steps.length + 1 + j2 =
                    w.steps.length + (j2 + 1) := by omega
                rwa [harith] at this
              · have := IH.2.2.2.1
                rw [hlen] at this
                have harith : w.steps.length + 1 + j2 =
                    w.steps.length + (j2 + 1) := by omega
                rwa [harith] at this

theorem basewf_execute_step_ok (w : BaseWF.BaseWorkflow) (idx : Nat)
    (h : idx < w.steps.length) (r : A2ASrv.Payload)
    (hres : (w.steps.get ⟨idx, h⟩).f w.parameters = Except.ok r) :
    BaseWF.execute_step w idx =
      (BaseWF.withStep w idx { w.steps.get ⟨idx, h⟩ with
          status := BaseWF.StepStatus.COMPLETED, result := some r },
       BaseWF.ExecResult.success r) := by
  have hres2 : w.steps[idx].f w.parameters = Except.ok r := by simpa using hres
  simp [BaseWF.execute_step, h, hres2, List.set_set, BaseWF.withStep]

theorem basewf_execute_step_err (w : BaseWF.BaseWorkflow) (idx : Nat)
    (h : idx < w.steps.length) (e : String)
    (hres : (w.steps.get ⟨idx, h⟩).f w.parameters = Except.error e) :
    BaseWF.execute_step w idx =
      (BaseWF.withStep w idx { w.steps.get ⟨idx, h⟩ with
          status := BaseWF.StepStatus.FAILED },
       BaseWF.ExecResult.error ("Error executing step " ++
         (w.steps.get ⟨idx, h⟩).name ++ ": " ++ e)) := by
  have hres2 : w.steps[idx].f w.parameters = Except.error e := by
    simpa using hres
  simp [BaseWF.execute_step, h, hres2, List.set_set, BaseWF.withStep]

theorem stepFnOk_withStep (w : BaseWF.BaseWorkflow) (idx : Nat)
    (st : BaseWF.WorkflowStep) (k : Nat) (h : idx ≠ k) :
    BaseWF.stepFnOk (BaseWF.withStep w idx st) k = BaseWF.stepFnOk w k := by
  simp [BaseWF.stepFnOk, BaseWF.withStep, List.getElem?_set_ne h]

theorem stepFnOk_advanceDone (w : BaseWF.BaseWorkflow) (idx : Nat)
    (st : BaseWF.WorkflowStep) (k : Nat) (h : idx ≠ k) :
    BaseWF.stepFnOk (BaseWF.advanceDone w idx st) k = BaseWF.stepFnOk w k := by
  simp [BaseWF.stepFnOk, BaseWF.advanceDone, List.getElem?_set_ne h]

theorem basewf_loop_fail :
    ∀ (fuel : Nat) (w : BaseWF.BaseWorkflow)
      (results : List BaseWF.ExecResult) (j : Nat),
      w.current_step_index ≤ j →
      j < w.steps.length →
      j < w.current_step_index + fuel →
      (∀ k, w.current_step_index ≤ k → k < j →
        BaseWF.stepFnOk w k = true) →
      BaseWF.stepFnOk w j = false →
      (∀ k, j < k →
        (BaseWF.execute_all_steps_loop fuel w results).1.steps[k]? =
          w.steps[k]?) ∧
      ((BaseWF.execute_all_steps_loop fuel w results).1.steps[j]?).map
        BaseWF.WorkflowStep.status = some BaseWF.StepStatus.FAILED := by
  intro fuel
  induction fuel with
  | zero =>
      intro w results j h1 h2 h3 hok hbad
      omega
  | succ fuel ih =>
      intro w results j h1 h2 h3 hok hbad
      have hcur : w.current_step_index < w.steps.length := by omega
      by_cases hcj : w.current_step_index = j
      · have hjq : w.steps[j]? = some (w.steps.get ⟨j, h2⟩) := by
          simp [List.getElem?_eq_getElem h2]
        cases hres : (w.steps.get ⟨j, h2⟩).f w.parameters with
        | ok r =>
            simp only [BaseWF.stepFnOk, hjq, hres] at hbad
            simp at hbad
        | error e =>
            have hstep := basewf_execute_step_err w j h2 e hres
            have hnext : BaseWF.execute_next_step w =
                (BaseWF.withStep w j { w.steps.get ⟨j, h2⟩ with
                    status := BaseWF.StepStatus.FAILED },
                 BaseWF.ExecResult.error ("Error executing step " ++
                   (w.steps.get ⟨j, h2⟩).name ++ ": " ++ e)) := by
              simp [BaseWF.execute_next_step, hcj, hstep]
            have hloop : BaseWF.execute_all_steps_loop (fuel + 1) w results =
                ((BaseWF.execute_next_step w).1,
                 results ++ [(BaseWF.execute_next_step w).2]) := by
              simp only [BaseWF.execute_all_steps_loop]
              rw [if_pos hcur, hnext]
              simp [BaseWF.ExecResult.isError]
            rw [hloop, hnext]
            constructor
            · intro k hk
              exact List.getElem?_set_ne (by omega)
            · have hlen : j < (w.steps.set j { w.steps.get ⟨j, h2⟩ with
                  status := BaseWF.StepStatus.FAILED }).length := by
                simpa using h2
              simp [BaseWF.withStep, List.getElem?_set_self, h2]
      · have hlt : w.current_step_index < j := lt_of_le_of_ne h1 hcj
        have hjq : w.steps[w.current_step_index]? =
            some (w.steps.get ⟨w.current_step_index, hcur⟩) := by
          simp [List.getElem?_eq_getElem hcur]
        have hokcur := hok w.current_step_index (le_refl _) hlt
        cases hres : (w.steps.get ⟨w.current_step_index, hcur⟩).f
            w.parameters with
        | error e =>
            simp only [BaseWF.stepFnOk, hjq, hres] at hokcur
            simp at hokcur
        | ok r =>
            have hstep := basewf_execute_step_ok w w.current_step_index hcur
              r hres
            have hnext : BaseWF.execute_next_step w =
                (BaseWF.advanceDone w w.current_step_index
                  { w.steps.get ⟨w.current_step_index, hcur⟩ with
                    status := BaseWF.StepStatus.COMPLETED, result := some r },
                 BaseWF.ExecResult.success r) := by
              simp [BaseWF.execute_next_step, hstep, BaseWF.withStep,
                BaseWF.advanceDone]
            have hloop : BaseWF.execute_all_steps_loop (fuel + 1) w results =
                BaseWF.execute_all_steps_loop fuel
                  (BaseWF.advanceDone w w.current_step_index
                    { w.steps.get ⟨w.current_step_index, hcur⟩ with
                      status := BaseWF.StepStatus.COMPLETED,
                      result := some r })
                  (results ++ [BaseWF.ExecResult.success r]) := by
              simp only [BaseWF.execute_all_steps_loop]
              rw [if_pos hcur, hnext]
              simp [BaseWF.ExecResult.isError]
            rw [hloop]
            have hIH := ih (BaseWF.advanceDone w w.current_step_index
                { w.steps.get ⟨w.current_step_index, hcur⟩ with
                  status := BaseWF.StepStatus.COMPLETED, result := some r })
              (results ++ [BaseWF.ExecResult.success r]) j
              (by simp [BaseWF.advanceDone]; omega)
              (by simp [BaseWF.advanceDone]; omega)
              (by simp [BaseWF.advanceDone]; omega)
              (by
                intro k hk1 hk2
                simp only [BaseWF.advanceDone] at hk1
                rw [stepFnOk_advanceDone w w.current_step_index _ k
                  (by omega)]
                exact hok k (by omega) hk2)
              (by
                rw [stepFnOk_advanceDone w w.current_step_index _ j
                  (by omega)]
                exact hbad)
            constructor
            · intro k hk
              rw [(hIH.1 k hk)]
              simp only [BaseWF.advanceDone]
              exact List.getElem?_set_ne (by omega)
            · exact hIH.2

/-- Claim C3: fail-fast.  In the orchestration engine, when the first `j`
steps complete and step `j` ends failed (or its execution raises), the run
marks that step record `failed` with its error recorded, sets the whole
workflow `failed` with an error record, and creates exactly `j + 1` step
records — configured steps after `j` are never started or submitted.  In
`BaseWorkflow.execute_all_steps`, after the first failing step every later
step entry is untouched (so a PENDING step stays PENDING) and the failing
step is FAILED. -/
theorem workflow_fail_fast
    (env : Nat → OrchWf.StepOutcome) (cfg : List OrchWf.ConfigStep)
    (fid name : String) (params : OrchWf.Params) (now : String) (j : Nat)
    (hj : j < cfg.length)
    (hclean : ∀ k, k < j → (env k).isCompleted = true)
    (hfail : (env j).isCompleted = false)
    (bw : BaseWF.BaseWorkflow) (j2 : Nat)
    (hbj : j2 < bw.steps.length)
    (hbok : ∀ k, k < j2 → BaseWF.stepFnOk bw k = true)
    (hbbad : BaseWF.stepFnOk bw j2 = false) :
    (OrchWf.run_workflow env cfg fid name params now).status = "failed" ∧
    (OrchWf.run_workflow env cfg fid name params now).steps.length = j + 1 ∧
    ((OrchWf.run_workflow env cfg fid name params now).steps[j]?).map
      OrchWf.WStep.status = some "failed" ∧
    (((OrchWf.run_workflow env cfg fid name params now).steps[j]?).bind
      OrchWf.WStep.error).isSome = true ∧
    ((OrchWf.run_workflow env cfg fid name params now).error).isSome =
      true ∧
    (∀ k, j2 < k →
      (BaseWF.execute_all_steps bw).1.steps[k]? = bw.steps[k]?) ∧
    ((BaseWF.execute_all_steps bw).1.steps[j2]?).map
      BaseWF.WorkflowStep.status = some BaseWF.StepStatus.FAILED := by
  have horch := orch_execute_steps_fail env now cfg 0 []
    (OrchWf.initial_workflow fid name params now) j hj
    (by intro k hk; simpa using hclean k hk)
    (by simpa using hfail)
  have hbase := basewf_loop_fail bw.steps.length
    { bw with current_step_index := 0 } [] j2
    (by simp)
    (by simpa using hbj)
    (by simpa using hbj)
    (by intro k hk1 hk2; exact hbok k hk2)
    hbbad
  refine ⟨horch.1, ?_, ?_, ?_, horch.2.2.2.2, hbase.1, hbase.2⟩
  · have := horch.2.1
    simpa [OrchWf.run_workflow, OrchWf.initial_workflow] using this
  · have := horch.2.2.1
    simpa [OrchWf.run_workflow, OrchWf.initial_workflow] using this
  · have := horch.2.2.2.1
    simpa [OrchWf.run_workflow, OrchWf.initial_workflow] using this

/-- Witness for C3: with the concrete three-step template whose second step
fails, the run is `failed` with exactly two step records and step 1 failed;
in the concrete base workflow the failing step 1 is FAILED and step 2 is
untouched (still PENDING). -/
theorem workflow_fail_fast_witness :
    (OrchWf.run_workflow OrchWf.demoEnv OrchWf.demoCfg "w1" "market_and_trade"
      [("budget", OrchWf.PVal.str "100")] "now").status = "failed" ∧
    (OrchWf.run_workflow OrchWf.demoEnv OrchWf.demoCfg "w1" "market_and_trade"
      [("budget", OrchWf.PVal.str "100")] "now").steps.length = 2 ∧
    ((OrchWf.run_workflow OrchWf.demoEnv OrchWf.demoCfg "w1"
      "market_and_trade" [("budget", OrchWf.PVal.str "100")]
      "now").steps[1]?).map OrchWf.WStep.status = some "failed" ∧
    (BaseWF.execute_all_steps BaseWF.demoBaseWf).1.steps[2]? =
      BaseWF.demoBaseWf.steps[2]? ∧
    ((BaseWF.execute_all_steps
      BaseWF.demoBaseWf).1.steps[1]?).map BaseWF.WorkflowStep.status =
      some BaseWF.StepStatus.FAILED := by
  have h := workflow_fail_fast OrchWf.demoEnv OrchWf.demoCfg "w1"
    "market_and_trade" [("budget", OrchWf.PVal.str "100")] "now" 1
    (by decide)
    (by decide)
    (by decide)
    BaseWF.demoBaseWf 1
    (by decide)
    (by decide)
    (by decide)
  exact ⟨h.1, h.2.1, h.2.2.1, h.2.2.2.2.2.1 2 (by omega), h.2.2.2.2.2.2⟩

theorem any_failed_false_of_all_completed (l : List WF2.WorkflowStep)
    (h : l.all WF2.stepCompleted = true) : l.any WF2.stepFailed = false := by
  simp only [List.all_eq_true] at h
  simp only [List.any_eq_false]
  intro s hs
  have hc := h s hs
  simp only [WF2.stepCompleted, beq_iff_eq] at hc
  simp [WF2.stepFailed, hc]

/-- Counterexample to claim C4 as stated: `update_status` on a workflow with
no steps sets the status to `pending`, not `completed`, although every one of
its (zero) steps is completed. -/
theorem workflow_completed_iff_counterexample :
    (WF2.update_status WF2.emptyWorkflow "t1").status = "pending" ∧
    WF2.emptyWorkflow.steps.all WF2.stepCompleted = true ∧
    "pending" ≠ "completed" :=
  ⟨rfl, rfl, by decide⟩

/-- Claim C4 (amended): after `update_status`, a workflow's status is
`completed` iff its step list is non-empty and every step is completed — a
workflow with no steps is set to `pending` instead. -/
theorem workflow_completed_iff_amended (w : WF2.Workflow) (now : String) :
    (WF2.update_status w now).status = "completed" ↔
      (w.steps ≠ [] ∧ w.steps.all WF2.stepCompleted = true) := by
  by_cases h1 : w.steps.any WF2.stepFailed = true
  · constructor
    · intro hc
      exfalso
      simp [WF2.update_status, h1] at hc
    · rintro ⟨hne, hall⟩
      exfalso
      rw [any_failed_false_of_all_completed w.steps hall] at h1
      simp at h1
  · have h1f : w.steps.any WF2.stepFailed = false := by
      simpa using h1
    by_cases h2 : (w.steps.all WF2.stepCompleted && !w.steps.isEmpty) = true
    · have hparts : w.steps.all WF2.stepCompleted = true ∧
          w.steps.isEmpty = false := by
        simpa [Bool.and_eq_true] using h2
      have hne : w.steps ≠ [] := by
        intro hx
        rw [hx] at hparts
        simp at hparts
      simp [WF2.update_status, h1f, h2, hne, hparts.1]
    · have hLHS : (WF2.update_status w now).status ≠ "completed" := by
        by_cases h3 : w.steps.any WF2.stepInProgress = true
        · simp [WF2.update_status, h1f, h2, h3]
        · have h3f : w.steps.any WF2.stepInProgress = false := by
            simpa using h3
          simp [WF2.update_status, h1f, h2, h3f]
      constructor
      · intro hc
        exact absurd hc hLHS
      · rintro ⟨hne, hall⟩
        exfalso
        apply h2
        have hie : w.steps.isEmpty = false := by
          cases hsteps : w.steps with
          | nil => exact absurd hsteps hne
          | cons a l => rfl
        simp [hall, hie]

/-- Counterexample to claim C5 as stated: a creation request whose step
dependency graph is a two-cycle (`s1` depends on `s2` and `s2` on `s1`) is
*not* rejected — `create_workflow` succeeds and stores the workflow with both
cyclic steps. -/
theorem create_workflow_cycle_counterexample :
    ((MCPA.create_workflow MCPA.demoAgentState "cyclic" []).2).isOk = true ∧
    dget? (MCPA.create_workflow MCPA.demoAgentState "cyclic"
      []).1.workflows "wf-cyc" = some MCPA.cyclicWorkflow ∧
    MCPA.cyclicWorkflow.steps.map MCPA.WorkflowStep.depends_on =
      [["s2"], ["s1"]] :=
  ⟨rfl, rfl, rfl⟩

/-- Claim C5 (amended): workflow creation rejects exactly the unregistered
workflow types, with an unknown-workflow-type error and the state unchanged;
when the type's module returns a workflow it is stored unmodified under its
own id and returned (a dataclass-default workflow starts in status CREATED);
no cycle or dangling `depends_on` validation is performed. -/
theorem create_workflow_amended
    (st : MCPA.AgentState) (wtMissing wtKnown : String) (p : A2ASrv.Payload)
    (g : MCPA.WorkflowModule) (wf : MCPA.Workflow)
    (wname wid : String) (wsteps : List MCPA.WorkflowStep)
    (h1 : dget? st.workflow_modules wtMissing = none)
    (h2 : dget? st.workflow_modules wtKnown = some g)
    (h3 : g p = Except.ok wf) :
    MCPA.create_workflow st wtMissing p =
      (st, Except.error ("Unknown workflow type: " ++ wtMissing)) ∧
    (MCPA.create_workflow st wtKnown p).2 = Except.ok wf ∧
    (MCPA.create_workflow st wtKnown p).1.workflows =
      dset st.workflows wf.id wf ∧
    dget? (MCPA.create_workflow st wtKnown p).1.workflows wf.id = some wf ∧
    ({ name := wname, id := wid, steps := wsteps } : MCPA.Workflow).status =
      MCPA.WorkflowStatus.CREATED := by
  refine ⟨?_, ?_, ?_, ?_, rfl⟩
  · simp [MCPA.create_workflow, h1]
  · simp [MCPA.create_workflow, h2, h3]
  · simp [MCPA.create_workflow, h2, h3]
  · simp [MCPA.create_workflow, h2, h3, dget?_dset_self]

/-- Witness for C5 (amended) on the concrete one-module agent state. -/
theorem create_workflow_amended_witness :
    MCPA.create_workflow MCPA.demoAgentState "nope" [] =
      (MCPA.demoAgentState,
       Except.error ("Unknown workflow type: " ++ "nope")) ∧
    (MCPA.create_workflow MCPA.demoAgentState "cyclic" []).2 =
      Except.ok MCPA.cyclicWorkflow ∧
    (MCPA.create_workflow MCPA.demoAgentState "cyclic" []).1.workflows =
      dset MCPA.demoAgentState.workflows MCPA.cyclicWorkflow.id
        MCPA.cyclicWorkflow ∧
    dget? (MCPA.create_workflow MCPA.demoAgentState "cyclic" []).1.workflows
      MCPA.cyclicWorkflow.id = some MCPA.cyclicWorkflow ∧
    ({ name := "w", id := "wid", steps := [] } : MCPA.Workflow).status =
      MCPA.WorkflowStatus.CREATED :=
  create_workflow_amended MCPA.demoAgentState "nope" "cyclic" []
    (fun _ => Except.ok MCPA.cyclicWorkflow) MCPA.cyclicWorkflow
    "w" "wid" [] rfl rfl rfl

/-- Claim C9: `register_agent` is an upsert keyed by the agent id:
registering data `d1` then `d2` under the same id leaves exactly one registry
entry for that id, and that entry is the agent built from the *latest*
registration — its declared functions, metadata and `last_active` all come
from `d2`. -/
theorem register_agent_idempotent_upsert
    (st : MCPA.AgentState) (d1 d2 : MCPA.AgentData) (i f1 f2 n1 n2 : String)
    (h0 : DNodupKeys st.agents)
    (h1 : d1.id = some i) (h2 : d2.id = some i) :
    dcountKey (MCPA.register_agent
      (MCPA.register_agent st d1 f1 n1).1 d2 f2 n2).1.agents i = 1 ∧
    dget? (MCPA.register_agent
      (MCPA.register_agent st d1 f1 n1).1 d2 f2 n2).1.agents i =
      some (MCPA.Agent.ofData d2 f2 n2) ∧
    (MCPA.Agent.ofData d2 f2 n2).functions = d2.functions.getD [] ∧
    (MCPA.Agent.ofData d2 f2 n2).metadata = d2.metadata.getD [] ∧
    (MCPA.Agent.ofData d2 f2 n2).last_active = n2 := by
  have ha1 : (MCPA.Agent.ofData d1 f1 n1).id = i := by
    simp [MCPA.Agent.ofData, h1]
  have ha2 : (MCPA.Agent.ofData d2 f2 n2).id = i := by
    simp [MCPA.Agent.ofData, h2]
  have hagents : (MCPA.register_agent
      (MCPA.register_agent st d1 f1 n1).1 d2 f2 n2).1.agents =
      dset (dset st.agents i (MCPA.Agent.ofData d1 f1 n1)) i
        (MCPA.Agent.ofData d2 f2 n2) := by
    simp [MCPA.register_agent, ha1, ha2]
  refine ⟨?_, ?_, rfl, rfl, rfl⟩
  · rw [hagents]
    exact dcountKey_dset_self _ i _ (dnodup_dset _ i _ h0)
  · rw [hagents]
    exact dget?_dset_self _ i _

/-- Witness for C9: registering the `market` agent twice (second time with
an extra function) leaves one entry carrying the second registration. -/
theorem register_agent_idempotent_upsert_witness :
    dcountKey (MCPA.register_agent
      (MCPA.register_agent MCPA.demoAgentState
        { id := some "market", functions := some ["fetch_price"] }
        "u1" "n1").1
      { id := some "market", functions := some ["fetch_price", "fetch_ohlcv"] }
      "u2" "n2").1.agents "market" = 1 ∧
    dget? (MCPA.register_agent
      (MCPA.register_agent MCPA.demoAgentState
        { id := some "market", functions := some ["fetch_price"] }
        "u1" "n1").1
      { id := some "market", functions := some ["fetch_price", "fetch_ohlcv"] }
      "u2" "n2").1.agents "market" =
      some (MCPA.Agent.ofData
        { id := some "market", functions := some ["fetch_price", "fetch_ohlcv"] }
        "u2" "n2") ∧
    (MCPA.Agent.ofData
      { id := some "market", functions := some ["fetch_price", "fetch_ohlcv"] }
      "u2" "n2").functions =
      (some ["fetch_price", "fetch_ohlcv"] : Option (List String)).getD [] ∧
    (MCPA.Agent.ofData
      { id := some "market", functions := some ["fetch_price", "fetch_ohlcv"] }
      "u2" "n2").metadata = (none : Option A2ASrv.Payload).getD [] ∧
    (MCPA.Agent.ofData
      { id := some "market", functions := some ["fetch_price", "fetch_ohlcv"] }
      "u2" "n2").last_active = "n2" :=
  register_agent_idempotent_upsert MCPA.demoAgentState
    { id := some "market", functions := some ["fetch_price"] }
    { id := some "market", functions := some ["fetch_price", "fetch_ohlcv"] }
    "market" "u1" "u2" "n1" "n2" (by decide) rfl rfl
